import Mathlib

/-!
Verification of the Sidekick worker/evaluator control loop.

Shallow embedding of the repository sources:
  * `sidekick.py` — the `State` pydantic model, the worker / tools / evaluator
    graph nodes, the two routers, `run_superstep`, and `cleanup` /
    `free_resources`;
  * `tools.py` — the tool-registry assembly (`get_tools`,
    `get_all_tools_with_browser`) with its per-tool exception handling;
  * `app.py` — the UI-level `free_resources` wrapper.

External collaborators (the two LLMs, the tool executors, the Playwright
browser/driver, the asyncio event loop, the wall clock) are modelled as
oracles / explicit parameters, following the contracts stated for them in the
design document.  Machine integers do not occur; all data is strings, lists,
booleans and naturals.
-/

namespace Sidekick

/-- Role tag of one conversation message (`SystemMessage`, `HumanMessage`,
`AIMessage`, `ToolMessage` in the source). -/
inductive Role where
  | system
  | user
  | assistant
  | tool
deriving DecidableEq, Repr

/-- One tool-invocation request attached to an assistant message
(`tool_calls` entries of an `AIMessage`). -/
structure ToolCall where
  name : String
  args : String
deriving DecidableEq, Repr

/-- One conversation message.  A `HumanMessage` / `ToolMessage` /
`SystemMessage` always carries `tool_calls = []` (the Python objects lack the
attribute; `worker_router` guards with `hasattr`). -/
structure Msg where
  role : Role
  content : String
  tool_calls : List ToolCall
deriving DecidableEq, Repr

/-- Default message used where Python would index `messages[-1]`; the round
seeds `messages` with at least the new user message, so the default is never
actually selected on reachable states. -/
def mdefault : Msg := { role := Role.assistant, content := "", tool_calls := [] }

/-- The `State` pydantic model of `sidekick.py` (the per-round graph state). -/
structure State where
  messages : List Msg
  success_criteria : String
  feedback_on_work : Option String
  success_criteria_met : Bool
  user_input_needed : Bool
deriving DecidableEq, Repr

/-- The `EvaluatorOutput` structured-output model of `sidekick.py`. -/
structure EvaluatorOutput where
  feedback : String
  success_criteria_met : Bool
  user_input_needed : Bool
deriving DecidableEq, Repr

/-! ### The worker system instruction (`Sidekick.worker`, lines 74-95)

The wall-clock timestamp interpolated by `datetime.now()` is not
shallow-embeddable; it is threaded through as an explicit string parameter
`now`. -/

/-- Text of the worker system message before the timestamp. -/
def workerSystemPart1 : String :=
  "You are a helpful assistant that can use tools to complete tasks.\n    You keep working on a task until either you have a question or clarification for the user, or the success criteria is met.\n    You have many tools to help you, including tools to browse the internet, navigating and retrieving web pages.\n    You have a tool to run python code, but note that you would need to include a print() statement if you wanted to receive output.\n    The current date and time is "

/-- Text of the worker system message between the timestamp and the success
criteria. -/
def workerSystemPart2 : String :=
  "\n\n    This is the success criteria:\n    "

/-- Text of the worker system message after the success criteria. -/
def workerSystemPart3 : String :=
  "\n    You should reply either with a question for the user about this assignment, or with your final response.\n    If you have a question for the user, you need to reply by clearly stating your question. An example might be:\n\n    Question: please clarify whether you want a summary or a detailed answer\n\n    If you\x27ve finished, reply with the final answer, and don\x27t ask a question; simply reply with the answer.\n    "

/-- Text appended to the worker system message before the evaluator feedback,
when feedback is present. -/
def workerFeedbackPart1 : String :=
  "\n    Previously you thought you completed the assignment, but your reply was rejected because the success criteria was not met.\n    Here is the feedback on why this was rejected:\n    "

/-- Text appended to the worker system message after the evaluator feedback. -/
def workerFeedbackPart2 : String :=
  "\n    With this feedback, please continue the assignment, ensuring that you meet the success criteria or have a question for the user."

/-- The complete worker system instruction built by `Sidekick.worker`: the
base instruction embedding the timestamp and the success criteria, plus — when
`feedback_on_work` is set — the rejection framing quoting that feedback. -/
def worker_system_message (now sc : String) (fb : Option String) : String :=
  workerSystemPart1 ++ now ++ workerSystemPart2 ++ sc ++ workerSystemPart3 ++
    match fb with
    | none => ""
    | some f => workerFeedbackPart1 ++ f ++ workerFeedbackPart2

/-- The in-place update loop of `Sidekick.worker`: every `SystemMessage`
already in the list has its `content` overwritten with the fresh system
instruction (`message.content = system_message`). -/
def replaceSystemContent (sys : String) (msgs : List Msg) : List Msg :=
  msgs.map fun m => if m.role = Role.system then { m with content := sys } else m

/-- The `found_system_message` flag of `Sidekick.worker`: whether the state
already holds a system message. -/
def containsSystem (msgs : List Msg) : Bool :=
  msgs.any fun m => m.role = Role.system

/-- The message list `Sidekick.worker` passes to the worker LLM: the state
messages with any existing system turn rewritten, and — only when no system
turn was found — a fresh system turn prepended to the *local* list.  The
prepended turn is not part of the returned state delta. -/
def worker_llm_input (now : String) (s : State) : List Msg :=
  let sys := worker_system_message now s.success_criteria s.feedback_on_work
  let msgs := replaceSystemContent sys s.messages
  if containsSystem s.messages then msgs
  else { role := Role.system, content := sys, tool_calls := [] } :: msgs

/-- Effect of one worker pass on the graph state: the in-place system-content
rewrite is visible in the stored list, and the LLM reply is appended by the
`add_messages` reducer.  All other fields are untouched (the node returns only
a `messages` delta). -/
def worker_update (now : String) (s : State) (reply : Msg) : State :=
  { s with
    messages :=
      replaceSystemContent
        (worker_system_message now s.success_criteria s.feedback_on_work)
        s.messages ++ [reply] }

/-- `Sidekick.worker_router`: route to the tool node exactly when the last
message carries tool calls. -/
def worker_router (s : State) : Bool :=
  (s.messages.getLastD mdefault).tool_calls ≠ []

/-- `ToolNode` semantics (per the design document, section 4.3): one result
turn per requested call, appended in request order; a failing tool yields a
descriptive failure string, never an exception, so execution is a total
function supplied as an oracle. -/
def tool_update (exec : ToolCall → String) (s : State) : State :=
  { s with
    messages :=
      s.messages ++
        (s.messages.getLastD mdefault).tool_calls.map fun c =>
          { role := Role.tool, content := exec c, tool_calls := [] } }

/-! ### The evaluator node (`Sidekick.format_conversation`, `Sidekick.evaluator`) -/

/-- Loop body of `Sidekick.format_conversation`: a `HumanMessage` renders as
a User line, an `AIMessage` as an Assistant line — with a tools-use marker
when its content is empty (Python `message.content or "[Tools use]"`) — and
any other message renders nothing. -/
def fmtStep (conversation : String) (message : Msg) : String :=
  match message.role with
  | Role.user => conversation ++ "User: " ++ message.content ++ "\n"
  | Role.assistant =>
      conversation ++ "Assistant: " ++
        (if message.content = "" then "[Tools use]" else message.content) ++ "\n"
  | _ => conversation

/-- `Sidekick.format_conversation`: renders only `HumanMessage` and
`AIMessage` turns; system and tool turns render nothing. -/
def format_conversation (messages : List Msg) : String :=
  messages.foldl fmtStep "Conversation history:\n\n"

/-- The evaluator system message of `Sidekick.evaluator`. -/
def evaluator_system_message : String :=
  "You are an evaluator that determines if a task has been completed successfully by an Assistant.\n    Assess the Assistant\x27s last response based on the given criteria. Respond with your feedback, and with your decision on whether the success criteria has been met,\n    and whether more input is needed from the user."

/-- Evaluator user-message text before the conversation rendering. -/
def evaluatorUserPart1 : String :=
  "You are evaluating a conversation between the User and Assistant. You decide what action to take based on the last response from the Assistant.\n\n    The entire conversation with the assistant, with the user\x27s original request and all replies, is:\n    "

/-- Evaluator user-message text between the conversation rendering and the
success criteria. -/
def evaluatorUserPart2 : String :=
  "\n\n    The success criteria for this assignment is:\n    "

/-- Evaluator user-message text between the success criteria and the candidate
final response. -/
def evaluatorUserPart3 : String :=
  "\n\n    And the final response from the Assistant that you are evaluating is:\n    "

/-- Evaluator user-message text after the candidate final response. -/
def evaluatorUserPart4 : String :=
  "\n\n    Respond with your feedback, and decide if the success criteria is met by this response.\n    Also, decide if more user input is required, either because the assistant has a question, needs clarification, or seems to be stuck and unable to answer without help.\n\n    The Assistant has access to a tool to write files. If the Assistant says they have written a file, then you can assume they have done so.\n    Overall you should give the Assistant the benefit of the doubt if they say they\x27ve done something. But you should reject if you feel that more work should go into this.\n\n    "

/-- Evaluator user-message text prepended to the prior feedback, when
present. -/
def evaluatorFeedbackPart1 : String :=
  "Also, note that in a prior attempt from the Assistant, you provided this feedback: "

/-- Evaluator user-message text appended after the prior feedback. -/
def evaluatorFeedbackPart2 : String :=
  "\n\nIf you\x27re seeing the Assistant repeating the same mistakes, then consider responding that user input is required."

/-- The user message `Sidekick.evaluator` sends to the evaluator LLM:
conversation rendering, success criteria, and the candidate final reply
(`last_response = state.messages[-1].content`), plus the prior-feedback
reminder when a rejection already occurred. -/
def evaluator_user_message (s : State) : String :=
  evaluatorUserPart1 ++ format_conversation s.messages ++
    evaluatorUserPart2 ++ s.success_criteria ++
    evaluatorUserPart3 ++ (s.messages.getLastD mdefault).content ++
    evaluatorUserPart4 ++
    match s.feedback_on_work with
    | none => ""
    | some f => evaluatorFeedbackPart1 ++ f ++ evaluatorFeedbackPart2

/-- The two-message list `Sidekick.evaluator` passes to the evaluator LLM. -/
def evaluator_messages (s : State) : List Msg :=
  [{ role := Role.system, content := evaluator_system_message, tool_calls := [] },
   { role := Role.user, content := evaluator_user_message s, tool_calls := [] }]

/-- The assistant-attributed feedback turn the evaluator appends to the
conversation. -/
def evalFeedbackMsg (fb : String) : Msg :=
  { role := Role.assistant,
    content := "Evaluator Feedback on this answer: " ++ fb,
    tool_calls := [] }

/-- Effect of one evaluator pass on the graph state: appends the feedback
turn and records the verdict fields. -/
def evaluator_update (s : State) (v : EvaluatorOutput) : State :=
  { s with
    messages := s.messages ++ [evalFeedbackMsg v.feedback],
    feedback_on_work := some v.feedback,
    success_criteria_met := v.success_criteria_met,
    user_input_needed := v.user_input_needed }

/-- `Sidekick.route_based_on_evaluation`: `true` means the END branch. -/
def route_based_on_evaluation (s : State) : Bool :=
  s.success_criteria_met || s.user_input_needed

/-! ### The compiled graph (`Sidekick.build_graph`)

Nodes `worker`, `tools`, `evaluator` plus the END sentinel (`terminal`).
Edges: START to worker; worker conditionally to tools or evaluator
(`worker_router`); tools to worker; evaluator conditionally to worker or END
(`route_based_on_evaluation`). -/

/-- Control location of the round state machine. -/
inductive Node where
  | worker
  | tools
  | evaluator
  | terminal
deriving DecidableEq, Repr

/-- The external collaborators of one round, as oracles: the worker LLM
(indexed by how many worker calls happened before, and applied to the exact
message list the node sends), the evaluator LLM (likewise), and the tool
executor. -/
structure Oracle where
  workerReply : Nat → List Msg → Msg
  verdict : Nat → List Msg → EvaluatorOutput
  toolExec : ToolCall → String

/-- One configuration of the round state machine.  `wIdx` / `vIdx` count the
worker / evaluator LLM calls made so far (they index the oracles);
`evalPasses`, `lastWorkerReply` and `lastVerdict` are ghost fields recording
history for specification only — no step reads them. -/
structure Config where
  node : Node
  state : State
  wIdx : Nat
  vIdx : Nat
  evalPasses : Nat
  lastWorkerReply : Option Msg
  lastVerdict : Option EvaluatorOutput
deriving DecidableEq, Repr

/-- One transition of the compiled graph.  A worker pass invokes the worker
LLM on `worker_llm_input`, applies `worker_update`, and routes by
`worker_router`; a tools pass applies `tool_update` and returns to the
worker; an evaluator pass invokes the evaluator LLM on `evaluator_messages`,
applies `evaluator_update`, and routes by `route_based_on_evaluation`.  The
terminal node is absorbing. -/
def step (now : String) (o : Oracle) (c : Config) : Config :=
  match c.node with
  | Node.worker =>
      let reply := o.workerReply c.wIdx (worker_llm_input now c.state)
      let s := worker_update now c.state reply
      { c with
        node := if worker_router s then Node.tools else Node.evaluator,
        state := s,
        wIdx := c.wIdx + 1,
        lastWorkerReply := some reply }
  | Node.tools =>
      { c with node := Node.worker, state := tool_update o.toolExec c.state }
  | Node.evaluator =>
      let v := o.verdict c.vIdx (evaluator_messages c.state)
      let s := evaluator_update c.state v
      { c with
        node := if route_based_on_evaluation s then Node.terminal else Node.worker,
        state := s,
        vIdx := c.vIdx + 1,
        evalPasses := c.evalPasses + 1,
        lastVerdict := some v }
  | Node.terminal => c

/-- `n` transitions of the graph. -/
def stepN (now : String) (o : Oracle) : Nat → Config → Config
  | 0, c => c
  | n + 1, c => stepN now o n (step now o c)

/-! ### `Sidekick.run_superstep` -/

/-- The generic success criterion substituted by `run_superstep` when the
caller supplies none (Python `success_criteria or "The answer should be clear
and accurate"`; the empty string is the falsy case). -/
def defaultCriteria : String := "The answer should be clear and accurate"

/-- Conversion of one persisted `(role, content)` record to a message, as
`FileChatMessageHistory.messages` rebuilds `HumanMessage` / `AIMessage`
objects. -/
def storedMsg (e : Role × String) : Msg :=
  { role := e.1, content := e.2, tool_calls := [] }

/-- The initial graph state built by `run_superstep`: persisted history plus
the new user message, the (defaulted) success criteria, no feedback, both
flags false. -/
def initialState (store : List (Role × String)) (message success_criteria : String) :
    State :=
  { messages := store.map storedMsg ++
      [{ role := Role.user, content := message, tool_calls := [] }],
    success_criteria :=
      if success_criteria = "" then defaultCriteria else success_criteria,
    feedback_on_work := none,
    success_criteria_met := false,
    user_input_needed := false }

/-- The initial configuration of one round: at the worker node (the START
edge), with fresh oracle indices and empty ghost history. -/
def initConfig (store : List (Role × String)) (message success_criteria : String) :
    Config :=
  { node := Node.worker,
    state := initialState store message success_criteria,
    wIdx := 0,
    vIdx := 0,
    evalPasses := 0,
    lastWorkerReply := none,
    lastVerdict := none }

/-- Run the graph until the END node, with fuel bounding the number of
transitions (`graph.ainvoke`; exceeding the fuel models a round that has not
completed). -/
def runRound (now : String) (o : Oracle) : Nat → Config → Option Config
  | 0, c => if c.node = Node.terminal then some c else none
  | n + 1, c =>
      if c.node = Node.terminal then some c else runRound now o n (step now o c)

/-- One display entry of the UI-visible history: the role/content
dictionaries built by `run_superstep`, with the literal role strings used
there. -/
structure Entry where
  role : String
  content : String
deriving DecidableEq, Repr

/-- `Sidekick.run_superstep`: seeds the round from the persisted store and
the new user message, runs the graph, appends `(user, message)` and
`(assistant, messages[-2].content)` to the persisted store, and returns the
caller history extended with the user message, the assistant reply
(`messages[-2]`) and the evaluator feedback note (`messages[-1]`).  Python
negative indexing raises on lists shorter than two; that failure is the
`none` outcome.  Returns the new visible history and the new persisted
store. -/
def run_superstep (now : String) (o : Oracle) (fuel : Nat)
    (store : List (Role × String)) (message success_criteria : String)
    (history : List Entry) :
    Option (List Entry × List (Role × String)) :=
  match runRound now o fuel (initConfig store message success_criteria) with
  | none => none
  | some c =>
      match c.state.messages.reverse.get? 1, c.state.messages.reverse.get? 0 with
      | some replyMsg, some fbMsg =>
          some
            (history ++
              [{ role := "user", content := message },
               { role := "assistant", content := replyMsg.content },
               { role := "assistant", content := fbMsg.content }],
             store ++
              [(Role.user, message), (Role.assistant, replyMsg.content)])
      | _, _ => none

/-! ### Resource lifecycle (`Sidekick.cleanup` / `Sidekick.free_resources`,
`app.free_resources`)

The Playwright browser and driver are external handles; their documented
contract (design document, sections 4.4 and 5) is that `close()` / `stop()`
are tolerated on an already-released handle.  Exceptions are modelled with
`Except`; `asyncio.get_running_loop` raising `RuntimeError` when no loop runs
is an explicit boolean parameter. -/

/-- A Playwright browser handle; `closed` is its release state. -/
structure Browser where
  closed : Bool
deriving DecidableEq, Repr

/-- A Playwright driver-process handle; `stopped` is its release state. -/
structure Playwright where
  stopped : Bool
deriving DecidableEq, Repr

/-- `browser.close()`: succeeds on an open handle and tolerates an already
closed one (the external contract: already released is a non-error). -/
def browser_close (b : Browser) : Except String Browser :=
  .ok { b with closed := true }

/-- `playwright.stop()`: same tolerance contract as `browser_close`. -/
def playwright_stop (p : Playwright) : Except String Playwright :=
  .ok { p with stopped := true }

/-- The browser/driver resources owned by one `Sidekick` instance. -/
structure Resources where
  browser : Option Browser
  playwright : Option Playwright
deriving DecidableEq, Repr

/-- `asyncio.get_running_loop()`: raises `RuntimeError` when no event loop is
running. -/
def get_running_loop (loopRunning : Bool) : Except String Unit :=
  if loopRunning then .ok () else .error "RuntimeError: no running event loop"

/-- `Sidekick.cleanup`: a no-op when no browser handle is held; otherwise
closes the browser and stops the driver, via scheduled tasks when a loop is
running (exceptions inside a scheduled task never propagate to the caller;
the eventual effect on the handles is modelled as immediate) and via
`asyncio.run` otherwise, in which case a failure of `close` / `stop` would
propagate.  Only `RuntimeError` from `get_running_loop` is caught. -/
def cleanup (loopRunning : Bool) (r : Resources) : Except String Resources :=
  match r.browser with
  | none => .ok r
  | some b =>
      match get_running_loop loopRunning with
      | .ok _ =>
          .ok { browser := some { b with closed := true },
                playwright := r.playwright.map fun p => { p with stopped := true } }
      | .error _ =>
          match browser_close b with
          | .error e => .error e
          | .ok b2 =>
              match r.playwright with
              | none => .ok { browser := some b2, playwright := none }
              | some p =>
                  match playwright_stop p with
                  | .error e => .error e
                  | .ok p2 => .ok { browser := some b2, playwright := some p2 }

/-- `Sidekick.free_resources`: public alias for `cleanup`. -/
def free_resources (loopRunning : Bool) (r : Resources) : Except String Resources :=
  cleanup loopRunning r

/-- `app.free_resources`: tolerates a missing session and catches every
exception from the release (printing it), so it always returns.  The result
is the session resources after the attempted release (unchanged when the
release failed mid-way is not observable at this level; the model keeps the
pre-release resources on failure). -/
def app_free_resources (loopRunning : Bool) (s : Option Resources) :
    Option Resources :=
  match s with
  | none => none
  | some r =>
      match free_resources loopRunning r with
      | .ok r2 => some r2
      | .error _ => some r

/-! ### The tool registry (`tools.py`)

Each `create_*` helper wraps its construction in a try/except returning
`None` (or an empty list) on failure.  The raw outcome of each underlying
construction — external library code — is an explicit `Except` field of an
environment. -/

/-- A named capability (`langchain` `Tool`): the control loop only sees name
and description. -/
structure Tool where
  name : String
  description : String
deriving DecidableEq, Repr

/-- Raw outcomes of the external tool constructions attempted by
`tools.py`. -/
structure ToolsEnv where
  fileToolkit : Except String (List Tool)
  serper : Except String Tool
  wikipedia : Except String Tool
  pythonRepl : Except String Tool
  arxiv : Except String Tool
  playwright : Except String (List Tool × Browser × Playwright)
deriving Repr

/-- `create_file_tools`: toolkit tools, or `[]` when construction throws. -/
def create_file_tools (env : ToolsEnv) : List Tool :=
  match env.fileToolkit with
  | .ok ts => ts
  | .error _ => []

/-- `create_search_tool`: the serper-backed search tool, or `None` on
failure. -/
def create_search_tool (env : ToolsEnv) : Option Tool :=
  env.serper.toOption

/-- `create_math_tool`: the sympy calculator; constructed locally, never
fails. -/
def create_math_tool : List Tool :=
  [{ name := "calculator",
     description := "Use this tool when you want to do math, provide the expression as a string" }]

/-- `create_wikipedia_tool`: the Wikipedia tool, or `None` on failure. -/
def create_wikipedia_tool (env : ToolsEnv) : Option Tool :=
  env.wikipedia.toOption

/-- `create_python_repl_tool`: the Python REPL tool, or `None` on failure. -/
def create_python_repl_tool (env : ToolsEnv) : Option Tool :=
  env.pythonRepl.toOption

/-- `create_arxiv_tool`: the ArXiv tool, or `None` on failure. -/
def create_arxiv_tool (env : ToolsEnv) : Option Tool :=
  env.arxiv.toOption

/-- `create_playwright_tools`: the browser toolkit plus its two handles, or
empty list and null handles when the browser-group construction throws. -/
def create_playwright_tools (env : ToolsEnv) :
    List Tool × Option Browser × Option Playwright :=
  match env.playwright with
  | .ok (ts, b, p) => (ts, some b, some p)
  | .error _ => ([], none, none)

/-- `get_tools`: assembles the non-browser registry in source order — file
tools, search, calculator, Wikipedia, Python REPL, ArXiv — skipping each
tool whose construction failed. -/
def get_tools (env : ToolsEnv) : List Tool :=
  create_file_tools env ++
    (create_search_tool env).toList ++
    create_math_tool ++
    (create_wikipedia_tool env).toList ++
    (create_python_repl_tool env).toList ++
    (create_arxiv_tool env).toList

/-- `get_all_tools_with_browser`: the non-browser registry followed by the
browser toolkit, together with the two browser handles. -/
def get_all_tools_with_browser (env : ToolsEnv) :
    List Tool × Option Browser × Option Playwright :=
  let bt := create_playwright_tools env
  (get_tools env ++ bt.1, bt.2.1, bt.2.2)

/-- The individually-failable construction sites of the registry. -/
inductive ToolGroup where
  | fileG
  | searchG
  | wikiG
  | pythonG
  | arxivG
  | playwrightG
deriving DecidableEq, Repr

/-- Force the named construction site to throw, leaving every other site
untouched. -/
def failGroup (g : ToolGroup) (env : ToolsEnv) : ToolsEnv :=
  match g with
  | ToolGroup.fileG => { env with fileToolkit := .error "boom" }
  | ToolGroup.searchG => { env with serper := .error "boom" }
  | ToolGroup.wikiG => { env with wikipedia := .error "boom" }
  | ToolGroup.pythonG => { env with pythonRepl := .error "boom" }
  | ToolGroup.arxivG => { env with arxiv := .error "boom" }
  | ToolGroup.playwrightG => { env with playwright := .error "boom" }

/-- The contribution of one construction site to the assembled registry. -/
def groupTools (g : ToolGroup) (env : ToolsEnv) : List Tool :=
  match g with
  | ToolGroup.fileG => create_file_tools env
  | ToolGroup.searchG => (create_search_tool env).toList
  | ToolGroup.wikiG => (create_wikipedia_tool env).toList
  | ToolGroup.pythonG => (create_python_repl_tool env).toList
  | ToolGroup.arxivG => (create_arxiv_tool env).toList
  | ToolGroup.playwrightG => (create_playwright_tools env).1

/-- Comparison assembly for the omission claim, following the specification
words: the registry with exactly one construction site contributing nothing
and every other contribution unchanged. -/
def assemblyWithout (g : ToolGroup) (env : ToolsEnv) : List Tool :=
  (if g = ToolGroup.fileG then [] else create_file_tools env) ++
    (if g = ToolGroup.searchG then [] else (create_search_tool env).toList) ++
    create_math_tool ++
    (if g = ToolGroup.wikiG then [] else (create_wikipedia_tool env).toList) ++
    (if g = ToolGroup.pythonG then [] else (create_python_repl_tool env).toList) ++
    (if g = ToolGroup.arxivG then [] else (create_arxiv_tool env).toList) ++
    (if g = ToolGroup.playwrightG then [] else (create_playwright_tools env).1)

/-! ### Invariants and auxiliary predicates -/

/-- Number of system-role turns in a message list. -/
def sysCount (msgs : List Msg) : Nat :=
  (msgs.filter fun m => m.role == Role.system).length

/-- The predicate selecting the turns `format_conversation` renders. -/
def isUserOrAssistant (m : Msg) : Bool :=
  m.role == Role.user || m.role == Role.assistant

/-- Flag discipline of one round: both verdict flags are false at every
non-terminal control location, and the terminal location presupposes at least
one evaluator pass. -/
def FlagsInv (c : Config) : Prop :=
  (c.node ≠ Node.terminal →
    c.state.success_criteria_met = false ∧ c.state.user_input_needed = false) ∧
  (c.node = Node.terminal → 0 < c.evalPasses)

/-- Message-shape discipline of one round: entering the evaluator, the
message list ends with the worker reply that routed there (a reply without
tool calls); at the terminal location it ends with that reply followed by the
evaluator feedback note, and the state fields record the final verdict. -/
def ShapeInv (c : Config) : Prop :=
  (c.node = Node.evaluator →
    ∃ pre r, c.lastWorkerReply = some r ∧
      c.state.messages = pre ++ [r] ∧ r.tool_calls = []) ∧
  (c.node = Node.terminal →
    ∃ pre r v, c.lastWorkerReply = some r ∧ c.lastVerdict = some v ∧
      c.state.messages = pre ++ [r, evalFeedbackMsg v.feedback] ∧
      r.tool_calls = [] ∧
      c.state.feedback_on_work = some v.feedback ∧
      c.state.success_criteria_met = v.success_criteria_met ∧
      c.state.user_input_needed = v.user_input_needed ∧
      (v.success_criteria_met || v.user_input_needed) = true)

/-- A worker oracle honouring the capability-binder contract: the worker LLM
always answers with an assistant turn. -/
def WorkerWellFormed (o : Oracle) : Prop :=
  ∀ k input, (o.workerReply k input).role = Role.assistant

/-! ### Concrete collaborators for evaluation -/

/-- A concrete worker reply without tool calls. -/
def replyNoTools : Msg := { role := Role.assistant, content := "4", tool_calls := [] }

/-- A concrete worker reply requesting one tool call. -/
def replyWithTool : Msg :=
  { role := Role.assistant, content := "",
    tool_calls := [{ name := "calculator", args := "2+2" }] }

/-- A concrete terminal verdict. -/
def verdictDone : EvaluatorOutput :=
  { feedback := "correct", success_criteria_met := true, user_input_needed := false }

/-- A concrete continue verdict. -/
def verdictRetry : EvaluatorOutput :=
  { feedback := "too vague", success_criteria_met := false, user_input_needed := false }

/-- A concrete oracle: the worker always answers plainly, the evaluator always
accepts. -/
def oracle0 : Oracle :=
  { workerReply := fun _ _ => replyNoTools,
    verdict := fun _ _ => verdictDone,
    toolExec := fun _ => "ok" }

/-- A concrete oracle with one tool round trip and one rejection: the first
worker reply requests a tool call, later replies answer plainly; the first
verdict rejects, later verdicts accept. -/
def oracle1 : Oracle :=
  { workerReply := fun k _ => if k = 0 then replyWithTool else replyNoTools,
    verdict := fun k _ => if k = 0 then verdictRetry else verdictDone,
    toolExec := fun _ => "4" }

/-- A concrete tool environment with every construction succeeding. -/
def envAllOk : ToolsEnv :=
  { fileToolkit := .ok [{ name := "read_file", description := "read" },
                        { name := "write_file", description := "write" }],
    serper := .ok { name := "search", description := "web search" },
    wikipedia := .ok { name := "wikipedia", description := "wiki" },
    pythonRepl := .ok { name := "Python_REPL", description := "repl" },
    arxiv := .ok { name := "arxiv", description := "papers" },
    playwright := .ok ([{ name := "navigate_browser", description := "go" }],
                       { closed := false }, { stopped := false }) }

/-! ## Lemmas -/

theorem getLastD_append_single (l : List Msg) (a d : Msg) :
    (l ++ [a]).getLastD d = a := by
  simp [List.getLastD_eq_getLast?, List.getLast?_concat]

theorem worker_router_update (now : String) (s : State) (r : Msg) :
    worker_router (worker_update now s r) = decide (r.tool_calls ≠ []) := by
  simp [worker_router, worker_update, getLastD_append_single]

theorem step_at_worker (now : String) (o : Oracle) (c : Config)
    (h : c.node = Node.worker) :
    step now o c =
      { c with
        node :=
          if (o.workerReply c.wIdx (worker_llm_input now c.state)).tool_calls ≠ []
          then Node.tools else Node.evaluator,
        state := worker_update now c.state
          (o.workerReply c.wIdx (worker_llm_input now c.state)),
        wIdx := c.wIdx + 1,
        lastWorkerReply :=
          some (o.workerReply c.wIdx (worker_llm_input now c.state)) } := by
  obtain ⟨node, st, wi, vi, ep, lw, lv⟩ := c
  cases h
  simp only [step, worker_router_update]
  by_cases hr :
      (o.workerReply wi (worker_llm_input now st)).tool_calls = [] <;>
    simp [hr]

theorem step_at_tools (now : String) (o : Oracle) (c : Config)
    (h : c.node = Node.tools) :
    step now o c = { c with node := Node.worker, state := tool_update o.toolExec c.state } := by
  obtain ⟨node, st, wi, vi, ep, lw, lv⟩ := c
  cases h
  rfl

theorem step_at_evaluator (now : String) (o : Oracle) (c : Config)
    (h : c.node = Node.evaluator) :
    step now o c =
      { c with
        node :=
          if ((o.verdict c.vIdx (evaluator_messages c.state)).success_criteria_met ||
              (o.verdict c.vIdx (evaluator_messages c.state)).user_input_needed)
          then Node.terminal else Node.worker,
        state := evaluator_update c.state (o.verdict c.vIdx (evaluator_messages c.state)),
        vIdx := c.vIdx + 1,
        evalPasses := c.evalPasses + 1,
        lastVerdict := some (o.verdict c.vIdx (evaluator_messages c.state)) } := by
  obtain ⟨node, st, wi, vi, ep, lw, lv⟩ := c
  cases h
  simp only [step, route_based_on_evaluation, evaluator_update]

theorem step_at_terminal (now : String) (o : Oracle) (c : Config)
    (h : c.node = Node.terminal) :
    step now o c = c := by
  obtain ⟨node, st, wi, vi, ep, lw, lv⟩ := c
  cases h
  rfl

theorem stepN_zero (now : String) (o : Oracle) (c : Config) :
    stepN now o 0 c = c := rfl

theorem stepN_succ (now : String) (o : Oracle) (n : Nat) (c : Config) :
    stepN now o (n + 1) c = stepN now o n (step now o c) := rfl

theorem stepN_add (now : String) (o : Oracle) (m n : Nat) (c : Config) :
    stepN now o (m + n) c = stepN now o n (stepN now o m c) := by
  induction m generalizing c with
  | zero => simp [stepN_zero]
  | succ m ih =>
      rw [show m + 1 + n = (m + n) + 1 from by omega]
      simp only [stepN_succ]
      exact ih (step now o c)

theorem stepN_at_terminal (now : String) (o : Oracle) (n : Nat) (c : Config)
    (h : c.node = Node.terminal) :
    stepN now o n c = c := by
  induction n with
  | zero => rfl
  | succ n ih => rw [stepN_succ, step_at_terminal now o c h]; exact ih

theorem step_success_criteria (now : String) (o : Oracle) (c : Config) :
    (step now o c).state.success_criteria = c.state.success_criteria := by
  obtain ⟨node, st, wi, vi, ep, lw, lv⟩ := c
  cases node <;>
    simp [step, worker_update, tool_update, evaluator_update]

theorem stepN_success_criteria (now : String) (o : Oracle) (n : Nat) (c : Config) :
    (stepN now o n c).state.success_criteria = c.state.success_criteria := by
  induction n generalizing c with
  | zero => rfl
  | succ n ih => rw [stepN_succ, ih, step_success_criteria]

theorem step_flags_of_not_evaluator (now : String) (o : Oracle) (c : Config)
    (h : c.node ≠ Node.evaluator) :
    (step now o c).state.success_criteria_met = c.state.success_criteria_met ∧
      (step now o c).state.user_input_needed = c.state.user_input_needed := by
  obtain ⟨node, st, wi, vi, ep, lw, lv⟩ := c
  cases node
  · constructor <;> simp [step, worker_update]
  · exact ⟨rfl, rfl⟩
  · exact absurd rfl h
  · exact ⟨rfl, rfl⟩

theorem flagsInv_step (now : String) (o : Oracle) (c : Config)
    (h : FlagsInv c) : FlagsInv (step now o c) := by
  obtain ⟨h1, h2⟩ := h
  obtain ⟨node, st, wi, vi, ep, lw, lv⟩ := c
  cases node
  · -- worker
    rw [step_at_worker now o _ rfl]
    refine ⟨fun _ => ?_, fun ht => ?_⟩
    · simpa [worker_update] using h1 (by simp)
    · exfalso
      revert ht
      split <;> simp
  · -- tools
    rw [step_at_tools now o _ rfl]
    refine ⟨fun _ => ?_, fun ht => by simp at ht⟩
    simpa [tool_update] using h1 (by simp)
  · -- evaluator
    rw [step_at_evaluator now o _ rfl]
    constructor
    · intro hn
      by_cases hb :
          ((o.verdict vi (evaluator_messages st)).success_criteria_met ||
            (o.verdict vi (evaluator_messages st)).user_input_needed) = true
      · simp [hb] at hn
      · simp only [Bool.or_eq_true, not_or, Bool.not_eq_true] at hb
        simp [evaluator_update, hb.1, hb.2]
    · intro _
      simp
  · -- terminal
    rw [step_at_terminal now o _ rfl]
    exact ⟨h1, h2⟩

theorem flagsInv_stepN (now : String) (o : Oracle) (n : Nat) (c : Config)
    (h : FlagsInv c) : FlagsInv (stepN now o n c) := by
  induction n generalizing c with
  | zero => exact h
  | succ n ih => exact ih _ (flagsInv_step now o c h)

theorem flagsInv_init (store : List (Role × String)) (message sc : String) :
    FlagsInv (initConfig store message sc) := by
  exact ⟨fun _ => ⟨rfl, rfl⟩, fun ht => by simp [initConfig] at ht⟩

theorem step_terminal_only_from_evaluator (now : String) (o : Oracle) (c : Config)
    (h : c.node ≠ Node.terminal) (h2 : (step now o c).node = Node.terminal) :
    c.node = Node.evaluator := by
  obtain ⟨node, st, wi, vi, ep, lw, lv⟩ := c
  cases node
  · rw [step_at_worker now o _ rfl] at h2
    revert h2
    split <;> simp
  · rw [step_at_tools now o _ rfl] at h2
    simp at h2
  · rfl
  · exact absurd rfl h

theorem shapeInv_step (now : String) (o : Oracle) (c : Config)
    (h : ShapeInv c) : ShapeInv (step now o c) := by
  obtain ⟨h1, h2⟩ := h
  obtain ⟨node, st, wi, vi, ep, lw, lv⟩ := c
  cases node
  · -- worker
    rw [step_at_worker now o _ rfl]
    by_cases hr :
        (o.workerReply wi (worker_llm_input now st)).tool_calls = []
    · refine ⟨fun _ => ?_, fun ht => ?_⟩
      · exact ⟨replaceSystemContent
            (worker_system_message now st.success_criteria st.feedback_on_work)
            st.messages,
          o.workerReply wi (worker_llm_input now st), rfl, rfl, hr⟩
      · simp [hr] at ht
    · constructor
      · intro he
        simp [hr] at he
      · intro ht
        simp [hr] at ht
  · -- tools
    rw [step_at_tools now o _ rfl]
    exact ⟨fun he => by simp at he, fun ht => by simp at ht⟩
  · -- evaluator
    obtain ⟨pre, r, hlw, hmsgs, hr⟩ := h1 rfl
    simp only at hlw hmsgs
    rw [step_at_evaluator now o _ rfl]
    by_cases hb :
        ((o.verdict vi (evaluator_messages st)).success_criteria_met ||
          (o.verdict vi (evaluator_messages st)).user_input_needed) = true
    · refine ⟨fun he => by simp [hb] at he, fun _ => ?_⟩
      refine ⟨pre, r, o.verdict vi (evaluator_messages st), hlw, rfl, ?_, hr,
        rfl, rfl, rfl, hb⟩
      simp [evaluator_update, hmsgs]
    · constructor
      · intro he
        simp [hb] at he
      · intro ht
        simp [hb] at ht
  · -- terminal
    rw [step_at_terminal now o _ rfl]
    exact ⟨h1, h2⟩

theorem shapeInv_stepN (now : String) (o : Oracle) (n : Nat) (c : Config)
    (h : ShapeInv c) : ShapeInv (stepN now o n c) := by
  induction n generalizing c with
  | zero => exact h
  | succ n ih => exact ih _ (shapeInv_step now o c h)

theorem shapeInv_init (store : List (Role × String)) (message sc : String) :
    ShapeInv (initConfig store message sc) := by
  exact ⟨fun he => by simp [initConfig] at he, fun ht => by simp [initConfig] at ht⟩

theorem take_length_append (history tail : List Entry) :
    (history ++ tail).take history.length = history := by
  simp

theorem sysCount_append (l1 l2 : List Msg) :
    sysCount (l1 ++ l2) = sysCount l1 + sysCount l2 := by
  simp [sysCount, List.filter_append]

theorem sysCount_replaceSystemContent (sys : String) (l : List Msg) :
    sysCount (replaceSystemContent sys l) = sysCount l := by
  induction l with
  | nil => rfl
  | cons m l ih =>
      simp only [replaceSystemContent, List.map_cons, sysCount, List.filter_cons] at *
      by_cases h : m.role = Role.system <;> simp [h, ih]

theorem containsSystem_eq_false (l : List Msg) (h : sysCount l = 0) :
    containsSystem l = false := by
  rw [sysCount, List.length_eq_zero, List.filter_eq_nil_iff] at h
  rw [containsSystem]
  rw [List.any_eq_false]
  intro m hm
  exact h m hm

theorem filter_system_eq_nil (l : List Msg) (h : sysCount l = 0) :
    l.filter (fun m => m.role == Role.system) = [] := by
  rw [sysCount, List.length_eq_zero] at h
  exact h

theorem worker_llm_input_system_turns (now : String) (s : State)
    (h : sysCount s.messages = 0) :
    (worker_llm_input now s).filter (fun m => m.role == Role.system) =
      [{ role := Role.system,
         content :=
           worker_system_message now s.success_criteria s.feedback_on_work,
         tool_calls := [] }] := by
  rw [worker_llm_input, containsSystem_eq_false s.messages h]
  simp only [Bool.false_eq_true, if_false, List.filter_cons]
  have h2 : sysCount (replaceSystemContent
      (worker_system_message now s.success_criteria s.feedback_on_work)
      s.messages) = 0 := by
    rw [sysCount_replaceSystemContent]; exact h
  rw [filter_system_eq_nil _ h2]
  simp

theorem sysCount_step (now : String) (o : Oracle) (c : Config)
    (hwf : WorkerWellFormed o) (h : sysCount c.state.messages = 0) :
    sysCount (step now o c).state.messages = 0 := by
  obtain ⟨node, st, wi, vi, ep, lw, lv⟩ := c
  cases node
  · rw [step_at_worker now o _ rfl]
    simp only [worker_update]
    rw [sysCount_append, sysCount_replaceSystemContent]
    simp only at h
    rw [h]
    have := hwf wi (worker_llm_input now st)
    simp [sysCount, List.filter_cons, this]
  · rw [step_at_tools now o _ rfl]
    simp only [tool_update]
    rw [sysCount_append]
    simp only at h
    rw [h]
    simp [sysCount, List.filter_map, Function.comp]
  · rw [step_at_evaluator now o _ rfl]
    simp only [evaluator_update]
    rw [sysCount_append]
    simp only at h
    rw [h]
    simp [sysCount, evalFeedbackMsg]
  · rw [step_at_terminal now o _ rfl]
    exact h

theorem sysCount_stepN (now : String) (o : Oracle) (n : Nat) (c : Config)
    (hwf : WorkerWellFormed o) (h : sysCount c.state.messages = 0) :
    sysCount (stepN now o n c).state.messages = 0 := by
  induction n generalizing c with
  | zero => exact h
  | succ n ih => exact ih _ (sysCount_step now o c hwf h)

theorem sysCount_init (store : List (Role × String)) (message sc : String)
    (hstore : ∀ e ∈ store, e.1 ≠ Role.system) :
    sysCount (initConfig store message sc).state.messages = 0 := by
  rw [initConfig]
  simp only [initialState]
  rw [sysCount_append]
  have h1 : sysCount (store.map storedMsg) = 0 := by
    rw [sysCount, List.length_eq_zero, List.filter_eq_nil_iff]
    intro m hm
    rw [List.mem_map] at hm
    obtain ⟨e, he, rfl⟩ := hm
    simpa [storedMsg] using hstore e he
  rw [h1]
  simp [sysCount]

theorem foldl_fmtStep_filter (l : List Msg) : ∀ acc : String,
    List.foldl fmtStep acc (l.filter isUserOrAssistant) = List.foldl fmtStep acc l := by
  induction l with
  | nil => intro acc; rfl
  | cons m l ih =>
      intro acc
      cases hm : m.role <;>
        simp [isUserOrAssistant, List.filter_cons, hm, fmtStep, ih]

theorem format_conversation_filter (l : List Msg) :
    format_conversation (l.filter isUserOrAssistant) = format_conversation l := by
  rw [format_conversation, format_conversation, foldl_fmtStep_filter]

theorem reverse_get_last (pre : List Msg) (a b : Msg) :
    (pre ++ [a, b]).reverse.get? 0 = some b ∧
      (pre ++ [a, b]).reverse.get? 1 = some a := by
  constructor <;> simp [List.reverse_append]

theorem step_worker_no_tools (now : String) (o : Oracle) (c : Config)
    (h : c.node = Node.worker)
    (hr : (o.workerReply c.wIdx (worker_llm_input now c.state)).tool_calls = []) :
    (step now o c).node = Node.evaluator ∧ (step now o c).wIdx = c.wIdx + 1 ∧
      (step now o c).vIdx = c.vIdx := by
  rw [step_at_worker now o c h]
  simp [hr]

theorem step_worker_with_tools (now : String) (o : Oracle) (c : Config)
    (h : c.node = Node.worker)
    (hr : (o.workerReply c.wIdx (worker_llm_input now c.state)).tool_calls ≠ []) :
    (step now o c).node = Node.tools ∧ (step now o c).wIdx = c.wIdx + 1 ∧
      (step now o c).vIdx = c.vIdx := by
  rw [step_at_worker now o c h]
  simp [hr]

theorem step_tools_back (now : String) (o : Oracle) (c : Config)
    (h : c.node = Node.tools) :
    (step now o c).node = Node.worker ∧ (step now o c).wIdx = c.wIdx ∧
      (step now o c).vIdx = c.vIdx := by
  rw [step_at_tools now o c h]
  exact ⟨rfl, rfl, rfl⟩

theorem step_eval_terminal (now : String) (o : Oracle) (c : Config)
    (h : c.node = Node.evaluator)
    (hb : ((o.verdict c.vIdx (evaluator_messages c.state)).success_criteria_met ||
        (o.verdict c.vIdx (evaluator_messages c.state)).user_input_needed) = true) :
    (step now o c).node = Node.terminal := by
  rw [step_at_evaluator now o c h]
  simp [hb]

theorem step_eval_continue (now : String) (o : Oracle) (c : Config)
    (h : c.node = Node.evaluator)
    (hb : ¬ ((o.verdict c.vIdx (evaluator_messages c.state)).success_criteria_met ||
        (o.verdict c.vIdx (evaluator_messages c.state)).user_input_needed) = true) :
    (step now o c).node = Node.worker ∧ (step now o c).wIdx = c.wIdx ∧
      (step now o c).vIdx = c.vIdx + 1 := by
  rw [step_at_evaluator now o c h]
  simp [hb]

theorem stepN_two (now : String) (o : Oracle) (c : Config) :
    stepN now o 2 c = step now o (step now o c) := rfl

theorem terminal_reach_phase2 (now : String) (o : Oracle) (N j : Nat)
    (hN : ∀ k, N ≤ k → ∀ input, (o.workerReply k input).tool_calls = [])
    (hj : ∀ input, ((o.verdict j input).success_criteria_met ||
        (o.verdict j input).user_input_needed) = true) :
    ∀ d c, c.node = Node.worker → N ≤ c.wIdx → c.vIdx + d = j →
      ∃ n, (stepN now o n c).node = Node.terminal := by
  intro d
  induction d with
  | zero =>
      intro c hw hk hv
      have hr := hN c.wIdx hk (worker_llm_input now c.state)
      obtain ⟨he, _, hvi⟩ := step_worker_no_tools now o c hw hr
      refine ⟨2, ?_⟩
      rw [stepN_two]
      apply step_eval_terminal now o _ he
      rw [hvi, show c.vIdx = j from by omega]
      exact hj _
  | succ d ih =>
      intro c hw hk hv
      have hr := hN c.wIdx hk (worker_llm_input now c.state)
      obtain ⟨he, hwi, hvi⟩ := step_worker_no_tools now o c hw hr
      by_cases hb :
          ((o.verdict (step now o c).vIdx
              (evaluator_messages (step now o c).state)).success_criteria_met ||
            (o.verdict (step now o c).vIdx
              (evaluator_messages (step now o c).state)).user_input_needed) = true
      · refine ⟨2, ?_⟩
        rw [stepN_two]
        exact step_eval_terminal now o _ he hb
      · obtain ⟨hw2, hwi2, hvi2⟩ := step_eval_continue now o _ he hb
        obtain ⟨n, hn⟩ := ih (step now o (step now o c)) hw2
          (by rw [hwi2, hwi]; omega) (by rw [hvi2, hvi]; omega)
        refine ⟨2 + n, ?_⟩
        rw [stepN_add, stepN_two]
        exact hn

theorem terminal_reach_phase1 (now : String) (o : Oracle) (N j : Nat)
    (hN : ∀ k, N ≤ k → ∀ input, (o.workerReply k input).tool_calls = [])
    (hj : ∀ input, ((o.verdict j input).success_criteria_met ||
        (o.verdict j input).user_input_needed) = true) :
    ∀ e c, c.node = Node.worker → c.wIdx + e = N → c.vIdx ≤ j →
      ∃ n, (stepN now o n c).node = Node.terminal := by
  intro e
  induction e with
  | zero =>
      intro c hw hk hvle
      exact terminal_reach_phase2 now o N j hN hj (j - c.vIdx) c hw (by omega)
        (by omega)
  | succ e ih =>
      intro c hw hk hvle
      by_cases hr :
          (o.workerReply c.wIdx (worker_llm_input now c.state)).tool_calls = []
      · obtain ⟨he, hwi, hvi⟩ := step_worker_no_tools now o c hw hr
        by_cases hb :
            ((o.verdict (step now o c).vIdx
                (evaluator_messages (step now o c).state)).success_criteria_met ||
              (o.verdict (step now o c).vIdx
                (evaluator_messages (step now o c).state)).user_input_needed) = true
        · refine ⟨2, ?_⟩
          rw [stepN_two]
          exact step_eval_terminal now o _ he hb
        · obtain ⟨hw2, hwi2, hvi2⟩ := step_eval_continue now o _ he hb
          have hne : c.vIdx ≠ j := by
            intro hcv
            apply hb
            rw [hvi, hcv]
            exact hj _
          obtain ⟨n, hn⟩ := ih (step now o (step now o c)) hw2
            (by rw [hwi2, hwi]; omega) (by rw [hvi2, hvi]; omega)
          refine ⟨2 + n, ?_⟩
          rw [stepN_add, stepN_two]
          exact hn
      · obtain ⟨ht, hwi, hvi⟩ := step_worker_with_tools now o c hw hr
        obtain ⟨hw2, hwi2, hvi2⟩ := step_tools_back now o _ ht
        obtain ⟨n, hn⟩ := ih (step now o (step now o c)) hw2
          (by rw [hwi2, hwi]; omega) (by rw [hvi2, hvi]; omega)
        refine ⟨2 + n, ?_⟩
        rw [stepN_add, stepN_two]
        exact hn

theorem runRound_some (now : String) (o : Oracle) (fuel : Nat) (c c2 : Config)
    (h : runRound now o fuel c = some c2) :
    ∃ n, n ≤ fuel ∧ stepN now o n c = c2 ∧ c2.node = Node.terminal := by
  induction fuel generalizing c with
  | zero =>
      by_cases ht : c.node = Node.terminal
      · refine ⟨0, Nat.le_refl 0, ?_, ?_⟩ <;>
          simp [runRound, ht] at h <;> simp [← h, stepN_zero, ht]
      · simp [runRound, ht] at h
  | succ fuel ih =>
      by_cases ht : c.node = Node.terminal
      · simp [runRound, ht] at h
        exact ⟨0, Nat.zero_le _, by simp [stepN_zero, ← h], by rw [← h]; exact ht⟩
      · simp only [runRound, ht, if_false] at h
        obtain ⟨n, hn, hs, hterm⟩ := ih (step now o c) h
        exact ⟨n + 1, by omega, by rw [stepN_succ]; exact hs, hterm⟩

/-! ## Claims -/

/-- C1, counterexample: after one worker pass of a round seeded from a
persisted history with no system turns, the round state's message sequence
contains zero system-role turns — not exactly one as claimed.  The system
instruction was only prepended to the local list sent to the LLM, and the
worker node returns only its reply into the state. -/
theorem c1_counterexample :
    sysCount
      (stepN "2025-01-01 12:00:00" oracle0 1
        (initConfig [] "hi" "ok")).state.messages ≠ 1 := by
  decide

/-- C1, amended: after any number of passes within a round seeded from a
persisted history with no system turns, the round state's message sequence
contains no system-role turn at all; the message sequence the worker step
sends to the LLM, however, contains exactly one system-role turn, and that
turn's content reflects the latest success criteria and the latest evaluator
feedback (an existing system turn would be overwritten in place rather than
duplicated, and the fresh turn is prepended only to the LLM input). -/
theorem c1_amended_system_turn (now : String) (o : Oracle)
    (store : List (Role × String)) (message sc : String) (n : Nat)
    (hstore : ∀ e ∈ store, e.1 ≠ Role.system)
    (hwf : WorkerWellFormed o) :
    sysCount (stepN now o n (initConfig store message sc)).state.messages = 0 ∧
    (worker_llm_input now (stepN now o n (initConfig store message sc)).state).filter
        (fun m => m.role == Role.system) =
      [{ role := Role.system,
         content := worker_system_message now
           (stepN now o n (initConfig store message sc)).state.success_criteria
           (stepN now o n (initConfig store message sc)).state.feedback_on_work,
         tool_calls := [] }] := by
  have h0 := sysCount_init store message sc hstore
  have h := sysCount_stepN now o n _ hwf h0
  exact ⟨h, worker_llm_input_system_turns now _ h⟩

/-- C1, witness for the amended theorem at a concrete round. -/
theorem c1_amended_system_turn_witness :
    sysCount
      (stepN "2025-01-01 12:00:00" oracle0 3
        (initConfig [(Role.user, "hello")] "hi" "ok")).state.messages = 0 :=
  (c1_amended_system_turn "2025-01-01 12:00:00" oracle0 [(Role.user, "hello")]
    "hi" "ok" 3 (by decide) (fun _ _ => rfl)).1

/-- C2: in every round, the flags `success_criteria_met` and
`user_input_needed` are false while no evaluator pass has occurred; they are
left unchanged by every non-evaluator step; whenever either flag is true the
round is at the terminal node and stays there (no further worker or tool
passes); and a transition into the terminal node happens only from the
evaluator node. -/
theorem c2_flag_discipline (now : String) (o : Oracle)
    (store : List (Role × String)) (message sc : String) :
    (∀ n, (stepN now o n (initConfig store message sc)).evalPasses = 0 →
      (stepN now o n (initConfig store message sc)).state.success_criteria_met = false ∧
      (stepN now o n (initConfig store message sc)).state.user_input_needed = false) ∧
    (∀ n, ((stepN now o n (initConfig store message sc)).node = Node.worker ∨
        (stepN now o n (initConfig store message sc)).node = Node.tools) →
      (stepN now o n (initConfig store message sc)).state.success_criteria_met = false ∧
      (stepN now o n (initConfig store message sc)).state.user_input_needed = false) ∧
    (∀ n, ((stepN now o n (initConfig store message sc)).state.success_criteria_met = true ∨
        (stepN now o n (initConfig store message sc)).state.user_input_needed = true) →
      (stepN now o n (initConfig store message sc)).node = Node.terminal ∧
      ∀ m, stepN now o m (stepN now o n (initConfig store message sc)) =
        stepN now o n (initConfig store message sc)) ∧
    (∀ c : Config, c.node ≠ Node.evaluator →
      (step now o c).state.success_criteria_met = c.state.success_criteria_met ∧
      (step now o c).state.user_input_needed = c.state.user_input_needed) ∧
    (∀ c : Config, c.node ≠ Node.terminal → (step now o c).node = Node.terminal →
      c.node = Node.evaluator) := by
  have hinv : ∀ n, FlagsInv (stepN now o n (initConfig store message sc)) :=
    fun n => flagsInv_stepN now o n _ (flagsInv_init store message sc)
  refine ⟨fun n hp => ?_, fun n hn => ?_, fun n hf => ?_,
    fun c hc => step_flags_of_not_evaluator now o c hc,
    fun c hc h2 => step_terminal_only_from_evaluator now o c hc h2⟩
  · obtain ⟨h1, h2⟩ := hinv n
    apply h1
    intro ht
    have := h2 ht
    omega
  · obtain ⟨h1, _⟩ := hinv n
    apply h1
    rcases hn with hn | hn <;> simp [hn]
  · obtain ⟨h1, _⟩ := hinv n
    by_cases ht : (stepN now o n (initConfig store message sc)).node = Node.terminal
    · exact ⟨ht, fun m => stepN_at_terminal now o m _ ht⟩
    · obtain ⟨hm, hu⟩ := h1 ht
      exfalso
      rcases hf with hf | hf
      · rw [hm] at hf; exact Bool.false_ne_true hf
      · rw [hu] at hf; exact Bool.false_ne_true hf

/-- C2, witness: instantiated at a concrete round that terminates after one
evaluator pass. -/
theorem c2_flag_discipline_witness :
    (stepN "2025-01-01 12:00:00" oracle0 0 (initConfig [] "hi" "ok")).evalPasses = 0 →
    (stepN "2025-01-01 12:00:00" oracle0 0 (initConfig [] "hi" "ok")).state.success_criteria_met = false ∧
    (stepN "2025-01-01 12:00:00" oracle0 0 (initConfig [] "hi" "ok")).state.user_input_needed = false :=
  (c2_flag_discipline "2025-01-01 12:00:00" oracle0 [] "hi" "ok").1 0

/-- C3: for every session, the release operation returns without raising in
both event-loop situations; with no browser handle present it is an exact
no-op; a second release right after a successful release is a no-op; and the
UI-level wrapper tolerates a missing session. -/
theorem c3_release_idempotent (loop1 loop2 : Bool) (r : Resources) :
    (∃ r2, free_resources loop1 r = Except.ok r2) ∧
    (r.browser = none → free_resources loop1 r = Except.ok r) ∧
    (∀ r2, free_resources loop1 r = Except.ok r2 →
      free_resources loop2 r2 = Except.ok r2) ∧
    app_free_resources loop1 none = none := by
  have hmain : ∀ (l : Bool) (b : Browser) (p : Option Playwright),
      cleanup l { browser := some b, playwright := p } =
        Except.ok { browser := some { closed := true },
                    playwright := p.map fun q => { stopped := true } } := by
    intro l b p
    cases l <;> rcases p with _ | q <;> rfl
  obtain ⟨ob, op⟩ := r
  rcases ob with _ | b
  · refine ⟨⟨_, rfl⟩, fun _ => rfl, fun r2 h => ?_, rfl⟩
    rw [free_resources] at h
    have h2 : ({ browser := none, playwright := op } : Resources) = r2 := by
      have h3 : cleanup loop1 { browser := none, playwright := op } =
          Except.ok { browser := none, playwright := op } := rfl
      rw [h3] at h
      injection h
    rw [← h2]
    rfl
  · refine ⟨⟨_, hmain loop1 b op⟩, fun hnone => by simp at hnone,
      fun r2 h => ?_, rfl⟩
    rw [free_resources, hmain loop1 b op] at h
    injection h with h
    rw [← h]
    rw [free_resources, hmain loop2 { closed := true }
      (op.map fun q => { stopped := true })]
    rcases op with _ | q <;> rfl

/-- C3, witness: a concrete double release of a live browser and driver. -/
theorem c3_release_idempotent_witness :
    free_resources false
      { browser := some { closed := true }, playwright := some { stopped := true } } =
    Except.ok
      { browser := some { closed := true }, playwright := some { stopped := true } } :=
  (c3_release_idempotent true false
    { browser := some { closed := false }, playwright := some { stopped := false } }).2.2.1
    { browser := some { closed := true }, playwright := some { stopped := true } }
    (by rfl)

/-- C4: when a round succeeds, the persisted store is extended with exactly
two entries — the user message, then the final worker reply (the reply the
worker step recorded last) — in that order; the evaluator feedback note is
not among the persisted entries. -/
theorem c4_persisted_append_order (now : String) (o : Oracle) (fuel : Nat)
    (store : List (Role × String)) (message sc : String)
    (history disp : List Entry) (store2 : List (Role × String))
    (h : run_superstep now o fuel store message sc history = some (disp, store2)) :
    ∃ c r v, runRound now o fuel (initConfig store message sc) = some c ∧
      c.node = Node.terminal ∧
      c.lastWorkerReply = some r ∧ c.lastVerdict = some v ∧
      store2 = store ++ [(Role.user, message), (Role.assistant, r.content)] := by
  rw [run_superstep] at h
  split at h
  · exact absurd h (by simp)
  · rename_i c hrr
    obtain ⟨n, hle, hsn, hterm⟩ := runRound_some now o fuel _ c hrr
    have hshape := shapeInv_stepN now o n _ (shapeInv_init store message sc)
    rw [hsn] at hshape
    obtain ⟨pre, r, v, hlw, hlv, hmsgs, hrtc, hfb, hm1, hm2, hbv⟩ := hshape.2 hterm
    obtain ⟨hg0, hg1⟩ := reverse_get_last pre r (evalFeedbackMsg v.feedback)
    split at h
    · rename_i replyMsg fbMsg h1 h0
      rw [hmsgs, hg1] at h1
      injection h1 with h1e
      simp only [Option.some.injEq, Prod.mk.injEq] at h
      refine ⟨c, r, v, hrr, hterm, hlw, hlv, ?_⟩
      rw [← h.2, h1e]
    · exact absurd h (by simp)

/-- C4, witness: the concrete simple question-and-answer round. -/
theorem c4_persisted_append_order_witness :
    ∃ c r v,
      runRound "2025-01-01 12:00:00" oracle0 3
          (initConfig [] "What is 2+2?" "answer is numeric") = some c ∧
      c.node = Node.terminal ∧
      c.lastWorkerReply = some r ∧ c.lastVerdict = some v ∧
      ([(Role.user, "What is 2+2?"), (Role.assistant, "4")] :
          List (Role × String)) =
        [] ++ [(Role.user, "What is 2+2?"), (Role.assistant, r.content)] :=
  c4_persisted_append_order "2025-01-01 12:00:00" oracle0 3 [] "What is 2+2?"
    "answer is numeric" []
    [{ role := "user", content := "What is 2+2?" },
     { role := "assistant", content := "4" },
     { role := "assistant", content := "Evaluator Feedback on this answer: correct" }]
    [(Role.user, "What is 2+2?"), (Role.assistant, "4")] (by decide)

/-- C5: when a round succeeds, the returned visible history is the caller's
history extended with exactly three display entries in order — the user
message, the final worker reply, and an assistant-attributed evaluator note
whose content is the feedback-marker text followed by the evaluator's
feedback. -/
theorem c5_visible_history_entries (now : String) (o : Oracle) (fuel : Nat)
    (store : List (Role × String)) (message sc : String)
    (history disp : List Entry) (store2 : List (Role × String))
    (h : run_superstep now o fuel store message sc history = some (disp, store2)) :
    ∃ c r v, runRound now o fuel (initConfig store message sc) = some c ∧
      c.node = Node.terminal ∧
      c.lastWorkerReply = some r ∧ c.lastVerdict = some v ∧
      disp = history ++
        [{ role := "user", content := message },
         { role := "assistant", content := r.content },
         { role := "assistant",
           content := "Evaluator Feedback on this answer: " ++ v.feedback }] := by
  rw [run_superstep] at h
  split at h
  · exact absurd h (by simp)
  · rename_i c hrr
    obtain ⟨n, hle, hsn, hterm⟩ := runRound_some now o fuel _ c hrr
    have hshape := shapeInv_stepN now o n _ (shapeInv_init store message sc)
    rw [hsn] at hshape
    obtain ⟨pre, r, v, hlw, hlv, hmsgs, hrtc, hfb, hm1, hm2, hbv⟩ := hshape.2 hterm
    obtain ⟨hg0, hg1⟩ := reverse_get_last pre r (evalFeedbackMsg v.feedback)
    split at h
    · rename_i replyMsg fbMsg h1 h0
      rw [hmsgs, hg1] at h1
      rw [hmsgs, hg0] at h0
      injection h1 with h1e
      injection h0 with h0e
      simp only [Option.some.injEq, Prod.mk.injEq] at h
      refine ⟨c, r, v, hrr, hterm, hlw, hlv, ?_⟩
      rw [← h.1, h1e, ← h0e]
      rfl
    · exact absurd h (by simp)

/-- C5, witness: the concrete simple question-and-answer round. -/
theorem c5_visible_history_entries_witness :
    ∃ c r v,
      runRound "2025-01-01 12:00:00" oracle0 3
          (initConfig [] "What is 2+2?" "answer is numeric") = some c ∧
      c.node = Node.terminal ∧
      c.lastWorkerReply = some r ∧ c.lastVerdict = some v ∧
      ([{ role := "user", content := "What is 2+2?" },
        { role := "assistant", content := "4" },
        { role := "assistant",
          content := "Evaluator Feedback on this answer: correct" }] :
          List Entry) =
        [] ++
          [{ role := "user", content := "What is 2+2?" },
           { role := "assistant", content := r.content },
           { role := "assistant",
             content := "Evaluator Feedback on this answer: " ++ v.feedback }] :=
  c5_visible_history_entries "2025-01-01 12:00:00" oracle0 3 [] "What is 2+2?"
    "answer is numeric" []
    [{ role := "user", content := "What is 2+2?" },
     { role := "assistant", content := "4" },
     { role := "assistant", content := "Evaluator Feedback on this answer: correct" }]
    [(Role.user, "What is 2+2?"), (Role.assistant, "4")] (by decide)

/-- C8: at every reachable evaluator entry, the last state message is the
worker's own reply (never a tool-result turn), and the evaluator's user
message is the conversation rendering — which covers only user and assistant
turns, every other turn being omitted — concatenated with the success
criteria and with that reply's content taken verbatim as the candidate final
response. -/
theorem c8_evaluator_rendering (now : String) (o : Oracle)
    (store : List (Role × String)) (message sc : String) (n : Nat)
    (h : (stepN now o n (initConfig store message sc)).node = Node.evaluator) :
    ∃ pre r,
      (stepN now o n (initConfig store message sc)).lastWorkerReply = some r ∧
      (stepN now o n (initConfig store message sc)).state.messages = pre ++ [r] ∧
      r.tool_calls = [] ∧
      evaluator_messages (stepN now o n (initConfig store message sc)).state =
        [{ role := Role.system, content := evaluator_system_message, tool_calls := [] },
         { role := Role.user,
           content :=
             evaluatorUserPart1 ++
               format_conversation
                 ((stepN now o n (initConfig store message sc)).state.messages.filter
                   isUserOrAssistant) ++
               evaluatorUserPart2 ++
               (stepN now o n (initConfig store message sc)).state.success_criteria ++
               evaluatorUserPart3 ++ r.content ++ evaluatorUserPart4 ++
               (match (stepN now o n (initConfig store message sc)).state.feedback_on_work with
                | none => ""
                | some f => evaluatorFeedbackPart1 ++ f ++ evaluatorFeedbackPart2),
           tool_calls := [] }] := by
  have hshape := (shapeInv_stepN now o n _ (shapeInv_init store message sc)).1 h
  obtain ⟨pre, r, hlw, hmsgs, hrtc⟩ := hshape
  refine ⟨pre, r, hlw, hmsgs, hrtc, ?_⟩
  rw [evaluator_messages, evaluator_user_message, format_conversation_filter,
    hmsgs, getLastD_append_single]

/-- C8, witness: the evaluator entry after one worker pass of a concrete
round. -/
theorem c8_evaluator_rendering_witness :
    ∃ pre r,
      (stepN "2025-01-01 12:00:00" oracle0 1
        (initConfig [] "hi" "ok")).lastWorkerReply = some r ∧
      (stepN "2025-01-01 12:00:00" oracle0 1
        (initConfig [] "hi" "ok")).state.messages = pre ++ [r] ∧
      r.tool_calls = [] ∧
      evaluator_messages
          (stepN "2025-01-01 12:00:00" oracle0 1 (initConfig [] "hi" "ok")).state =
        [{ role := Role.system, content := evaluator_system_message, tool_calls := [] },
         { role := Role.user,
           content :=
             evaluatorUserPart1 ++
               format_conversation
                 ((stepN "2025-01-01 12:00:00" oracle0 1
                    (initConfig [] "hi" "ok")).state.messages.filter
                   isUserOrAssistant) ++
               evaluatorUserPart2 ++
               (stepN "2025-01-01 12:00:00" oracle0 1
                 (initConfig [] "hi" "ok")).state.success_criteria ++
               evaluatorUserPart3 ++ r.content ++ evaluatorUserPart4 ++
               (match (stepN "2025-01-01 12:00:00" oracle0 1
                   (initConfig [] "hi" "ok")).state.feedback_on_work with
                | none => ""
                | some f => evaluatorFeedbackPart1 ++ f ++ evaluatorFeedbackPart2),
           tool_calls := [] }] :=
  c8_evaluator_rendering "2025-01-01 12:00:00" oracle0 [] "hi" "ok" 1 (by decide)

/-- C6: whenever the worker replies carry no tool-invocation requests from
some call index on, and some evaluator verdict reports success or a need for
user input, the round reaches the terminal node in finitely many
transitions. -/
theorem c6_terminal_reachability (now : String) (o : Oracle)
    (store : List (Role × String)) (message sc : String) (N j : Nat)
    (hN : ∀ k, N ≤ k → ∀ input, (o.workerReply k input).tool_calls = [])
    (hj : ∀ input, ((o.verdict j input).success_criteria_met ||
        (o.verdict j input).user_input_needed) = true) :
    ∃ n, (stepN now o n (initConfig store message sc)).node = Node.terminal := by
  apply terminal_reach_phase1 now o N j hN hj N (initConfig store message sc) rfl
  · simp [initConfig]
  · simp [initConfig]

/-- C6, witness: a concrete round with one tool round trip and one rejection
still reaches terminal. -/
theorem c6_terminal_reachability_witness :
    ∃ n, (stepN "2025-01-01 12:00:00" oracle1 n
      (initConfig [] "hi" "ok")).node = Node.terminal :=
  c6_terminal_reachability "2025-01-01 12:00:00" oracle1 [] "hi" "ok" 1 1
    (fun k hk input => by
      simp only [oracle1]
      rw [if_neg (by omega)]
      rfl)
    (fun input => by
      simp only [oracle1]
      rw [if_neg (by omega)]
      rfl)

/-- C7: failing any single tool-construction site only removes that site's
contribution from the assembled registry, leaving every other tool in place;
when the browser-backed group itself fails, assembly returns the non-browser
tools with null browser and driver handles; and the registry never fails
outright — the locally-constructed calculator is always present. -/
theorem c7_tool_omission (env : ToolsEnv) (g : ToolGroup) :
    (get_all_tools_with_browser (failGroup g env)).1 = assemblyWithout g env ∧
    (get_all_tools_with_browser (failGroup g env)).2 =
      (if g = ToolGroup.playwrightG then (none, none)
       else (get_all_tools_with_browser env).2) ∧
    (∀ e, env.playwright = Except.error e →
      get_all_tools_with_browser env = (get_tools env, none, none)) ∧
    ({ name := "calculator",
       description :=
         "Use this tool when you want to do math, provide the expression as a string" } :
      Tool) ∈ (get_all_tools_with_browser env).1 := by
  refine ⟨?_, ?_, fun e he => ?_, ?_⟩
  · cases g <;>
      simp [get_all_tools_with_browser, get_tools, assemblyWithout, failGroup,
        create_file_tools, create_search_tool, create_math_tool,
        create_wikipedia_tool, create_python_repl_tool, create_arxiv_tool,
        create_playwright_tools, Except.toOption]
  · cases g <;>
      simp [get_all_tools_with_browser, failGroup, create_playwright_tools]
  · simp [get_all_tools_with_browser, create_playwright_tools, he]
  · simp [get_all_tools_with_browser, get_tools, create_math_tool]

/-- C7, witness: the browser group failing on an otherwise-healthy
environment. -/
theorem c7_tool_omission_witness :
    get_all_tools_with_browser
      { envAllOk with playwright := Except.error "boom" } =
    (get_tools { envAllOk with playwright := Except.error "boom" }, none, none) :=
  (c7_tool_omission { envAllOk with playwright := Except.error "boom" }
    ToolGroup.fileG).2.2.1 "boom" rfl

/-- C9: when the caller supplies no success criteria (the empty string), the
round state's `success_criteria` is the fixed generic default criterion, and
the field never changes during the round whatever criteria were supplied. -/
theorem c9_success_criteria_default_fixed (now : String) (o : Oracle)
    (store : List (Role × String)) (message : String) :
    (initConfig store message "").state.success_criteria = defaultCriteria ∧
    ∀ sc n, (stepN now o n (initConfig store message sc)).state.success_criteria =
      (initConfig store message sc).state.success_criteria := by
  exact ⟨by simp [initConfig, initialState], fun sc n => stepN_success_criteria now o n _⟩

/-- C10: when a round succeeds, the returned visible history is a fresh
sequence beginning with exactly the caller's entries, unchanged and in order,
followed by exactly three new display entries. -/
theorem c10_history_frame (now : String) (o : Oracle) (fuel : Nat)
    (store : List (Role × String)) (message sc : String)
    (history disp : List Entry) (store2 : List (Role × String))
    (h : run_superstep now o fuel store message sc history = some (disp, store2)) :
    disp.take history.length = history ∧
    ∃ tail, disp = history ++ tail ∧ tail.length = 3 := by
  rw [run_superstep] at h
  split at h
  · exact absurd h (by simp)
  · split at h
    · simp only [Option.some.injEq, Prod.mk.injEq] at h
      obtain ⟨hd, _⟩ := h
      refine ⟨?_, ⟨_, hd.symm, rfl⟩⟩
      rw [← hd]
      exact take_length_append history _
    · exact absurd h (by simp)

/-- C10, witness: the frame property at a concrete successful round. -/
theorem c10_history_frame_witness :
    ([{ role := "user", content := "old" },
      { role := "user", content := "hi" },
      { role := "assistant", content := "4" },
      { role := "assistant", content := "Evaluator Feedback on this answer: correct" }] :
        List Entry).take 1 = [{ role := "user", content := "old" }] ∧
    ∃ tail,
      ([{ role := "user", content := "old" },
        { role := "user", content := "hi" },
        { role := "assistant", content := "4" },
        { role := "assistant", content := "Evaluator Feedback on this answer: correct" }] :
          List Entry) = [{ role := "user", content := "old" }] ++ tail ∧
      tail.length = 3 :=
  c10_history_frame "2025-01-01 12:00:00" oracle0 3 [] "hi" "ok"
    [{ role := "user", content := "old" }]
    [{ role := "user", content := "old" },
     { role := "user", content := "hi" },
     { role := "assistant", content := "4" },
     { role := "assistant", content := "Evaluator Feedback on this answer: correct" }]
    [(Role.user, "hi"), (Role.assistant, "4")] (by decide)

end Sidekick
